import Mathlib

/-!
Shallow embedding of `internal/provider/resource_tsuru_certificate_issuer.go`:
the Terraform resource handlers `resourceTsuruCertificateIssuerSet`,
`resourceTsuruCertificateIssuerUnset` and `resourceTsuruCertificateIssuerRead`.

The remote tsuru API client is modelled as a record of oracle functions
(`Remote`); each handler returns the final resource state, the list of remote
API calls it issued (in order), and an optional diagnostic error message,
mirroring the Go code's `*schema.ResourceData` mutations, client calls and
`diag.Diagnostics` return value.
-/

namespace TsuruCertIssuer

/-- Certificate data the remote API reports for one CNAME of one router:
the Go client struct accessed as `cnameInRouter.Issuer` /
`cnameInRouter.Certificate` in the read handler. -/
structure CnameCertificate where
  Issuer : String
  Certificate : String
deriving DecidableEq, Repr

/-- One router entry of the certificate listing: its CNAME table, accessed as
`router.Cnames[cname]` in the read handler. A Go `map[string]` is embedded as
an association list; its list order stands for the map's iteration order. -/
structure RouterCertificates where
  Cnames : List (String × CnameCertificate)
deriving DecidableEq, Repr

/-- The full certificate listing returned by `AppGetCertificates`, accessed as
`certificates.Routers` in the read handler. -/
structure CertificateSetInfo where
  Routers : List (String × RouterCertificates)
deriving DecidableEq, Repr

/-- Request body of the assign call: `tsuru.CertIssuerSetData{Cname, Issuer}`. -/
structure CertIssuerSetData where
  Cname : String
  Issuer : String
deriving DecidableEq, Repr

/-- A remote API call issued by a handler, with the arguments it was given. -/
inductive ApiCall where
  | setCertIssuer (app : String) (data : CertIssuerSetData)
  | unsetCertIssuer (app : String) (cname : String)
  | getCertificates (app : String)
deriving DecidableEq, Repr

/-- The remote tsuru client (`provider.TsuruClient.AppApi`) as an oracle:
each operation either succeeds or fails with an error message. -/
structure Remote where
  AppSetCertIssuer : String → CertIssuerSetData → Except String Unit
  AppUnsetCertIssuer : String → String → Except String Unit
  AppGetCertificates : String → Except String CertificateSetInfo

/-- The Terraform resource state (`*schema.ResourceData`): the persisted
identifier plus the schema fields of the resource. -/
structure ResourceState where
  id : String
  app : String
  cname : String
  issuer : String
  router : List String
  certificate : List String
  ready : Bool
deriving DecidableEq, Repr

/-- Go `strings.Split(s, "::")` specialised to the `"::"` separator, on the
character list of the string: repeatedly splits at the leftmost occurrence of
two consecutive colons. -/
def splitOnDoubleColon : List Char → List (List Char)
  | [] => [[]]
  | [c] => [[c]]
  | c1 :: c2 :: rest =>
    if c1 = ':' ∧ c2 = ':' then
      [] :: splitOnDoubleColon rest
    else
      match splitOnDoubleColon (c2 :: rest) with
      | [] => [[c1]]
      | p :: ps => (c1 :: p) :: ps

/-- Modelled from the spec: the shared identifier-parsing helper `IDtoParts`
(defined outside this source fragment) splits the persisted identifier
(format `app::cname::issuer`) on the `::` delimiter and surfaces a diagnostic
error for a malformed persisted id, i.e. unless the split yields exactly the
requested number of parts. -/
def IDtoParts (id : String) (n : Nat) : Except String (List String) :=
  let parts := (splitOnDoubleColon id.data).map String.mk
  if parts.length = n then Except.ok parts
  else Except.error ("unexpected ID format: " ++ id)

/-- Lexicographic comparison of character lists by code point, the order
`sort.Strings` sorts by. -/
def listCharLe : List Char → List Char → Bool
  | [], _ => true
  | _ :: _, [] => false
  | a :: as, b :: bs =>
    if a.toNat < b.toNat then true
    else if b.toNat < a.toNat then false
    else listCharLe as bs

/-- Lexicographic order on strings (the order used by Go `sort.Strings`). -/
def strLe (a b : String) : Bool := listCharLe a.data b.data

/-- The proposition form of `strLe`, for sortedness statements. -/
def StrOrd (a b : String) : Prop := strLe a b = true

instance : DecidableRel StrOrd := fun a b => inferInstanceAs (Decidable (strLe a b = true))

/-- Go `sort.Strings`: sorts a string slice into ascending lexicographic
order (embedded as an insertion sort, which produces the same sorted list). -/
def sortStrings (l : List String) : List String := List.insertionSort StrOrd l

/-- One iteration of the read handler's `for routerName, router := range
certificates.Routers` loop body, threading the accumulated `usedRouters` and
`usedCertificates` slices. -/
def collectStep (cname issuer : String) (acc : List String × List String)
    (entry : String × RouterCertificates) : List String × List String :=
  match entry.2.Cnames.lookup cname with
  | none => acc
  | some cnameInRouter =>
    if cnameInRouter.Issuer ≠ issuer then acc
    else
      (acc.1 ++ [entry.1],
       if cnameInRouter.Certificate ≠ "" then acc.2 ++ [cnameInRouter.Certificate]
       else acc.2)

/-- The read handler's router loop: starting from empty `usedRouters` and
`usedCertificates`, fold the loop body over the listing's routers. -/
def collectUsed (cname issuer : String) (routers : List (String × RouterCertificates)) :
    List String × List String :=
  routers.foldl (collectStep cname issuer) ([], [])

/-- The router-name test applied by one loop iteration, as an option-valued
filter: the loop appends `entry.1` to `usedRouters` exactly when the router's
CNAME table has the target cname with the matching issuer. -/
def routerFilter (cname issuer : String) (entry : String × RouterCertificates) : Option String :=
  match entry.2.Cnames.lookup cname with
  | none => none
  | some c => if c.Issuer ≠ issuer then none else some entry.1

/-- The certificate test applied by one loop iteration, as an option-valued
filter: the loop appends the certificate exactly when the router matches and
its certificate value is non-empty. -/
def certFilter (cname issuer : String) (entry : String × RouterCertificates) : Option String :=
  match entry.2.Cnames.lookup cname with
  | none => none
  | some c =>
    if c.Issuer ≠ issuer then none
    else if c.Certificate ≠ "" then some c.Certificate else none

/-- `resourceTsuruCertificateIssuerRead`: parse the identifier into
(app, cname, issuer); fetch the certificate listing; collect matching router
names and non-empty certificates; sort both; write all fields back. On a
parse or remote error, return the diagnostic and leave the state unchanged. -/
def resourceTsuruCertificateIssuerRead (provider : Remote) (d : ResourceState) :
    ResourceState × List ApiCall × Option String :=
  match IDtoParts d.id 3 with
  | Except.error e => (d, [], some e)
  | Except.ok parts =>
    let app := parts.getD 0 ""
    let cname := parts.getD 1 ""
    let issuer := parts.getD 2 ""
    match provider.AppGetCertificates app with
    | Except.error e => (d, [ApiCall.getCertificates app], some e)
    | Except.ok certificates =>
      let collected := collectUsed cname issuer certificates.Routers
      let usedRouters := sortStrings collected.1
      let usedCertificates := sortStrings collected.2
      ({ d with
          app := app
          cname := cname
          issuer := issuer
          router := usedRouters
          certificate := usedCertificates
          ready := decide (0 < usedCertificates.length) },
       [ApiCall.getCertificates app], none)

/-- `resourceTsuruCertificateIssuerSet`: call `AppSetCertIssuer` with the
configured (app, cname, issuer); on failure report
`unable to set certificate issuer: ...` without touching the state; on
success set the identifier to `app::cname::issuer` and delegate to read. -/
def resourceTsuruCertificateIssuerSet (provider : Remote) (d : ResourceState) :
    ResourceState × List ApiCall × Option String :=
  let app := d.app
  let cname := d.cname
  let issuer := d.issuer
  let call := ApiCall.setCertIssuer app ⟨cname, issuer⟩
  match provider.AppSetCertIssuer app ⟨cname, issuer⟩ with
  | Except.error err => (d, [call], some ("unable to set certificate issuer: " ++ err))
  | Except.ok _ =>
    let r := resourceTsuruCertificateIssuerRead provider { d with id := app ++ "::" ++ cname ++ "::" ++ issuer }
    (r.1, call :: r.2.1, r.2.2)

/-- `resourceTsuruCertificateIssuerUnset`: parse the identifier; call
`AppUnsetCertIssuer` with its app and cname parts; on failure report
`unable to unset certificate issuer: ...`; on success delegate to read. -/
def resourceTsuruCertificateIssuerUnset (provider : Remote) (d : ResourceState) :
    ResourceState × List ApiCall × Option String :=
  match IDtoParts d.id 3 with
  | Except.error e => (d, [], some e)
  | Except.ok parts =>
    let app := parts.getD 0 ""
    let cname := parts.getD 1 ""
    let call := ApiCall.unsetCertIssuer app cname
    match provider.AppUnsetCertIssuer app cname with
    | Except.error err => (d, [call], some ("unable to unset certificate issuer: " ++ err))
    | Except.ok _ =>
      let r := resourceTsuruCertificateIssuerRead provider d
      (r.1, call :: r.2.1, r.2.2)

/-! ## Concrete fixtures for the closed witness statements -/

/-- Example certificate listing: two routers matching (cname, issuer) with
non-empty certificates, one matching with an empty certificate, one with a
different issuer. -/
def sampleListing : CertificateSetInfo :=
  ⟨[("router-b", ⟨[("web.example.com", ⟨"letsencrypt", "CERT-B"⟩)]⟩),
    ("router-a", ⟨[("web.example.com", ⟨"letsencrypt", "CERT-A"⟩),
                   ("other.example.com", ⟨"other", "X"⟩)]⟩),
    ("router-c", ⟨[("web.example.com", ⟨"digicert", "CERT-C"⟩)]⟩),
    ("router-d", ⟨[("web.example.com", ⟨"letsencrypt", ""⟩)]⟩)]⟩

/-- The same listing with its routers in a different map-iteration order. -/
def sampleListingPermuted : CertificateSetInfo :=
  ⟨[("router-d", ⟨[("web.example.com", ⟨"letsencrypt", ""⟩)]⟩),
    ("router-a", ⟨[("web.example.com", ⟨"letsencrypt", "CERT-A"⟩),
                   ("other.example.com", ⟨"other", "X"⟩)]⟩),
    ("router-b", ⟨[("web.example.com", ⟨"letsencrypt", "CERT-B"⟩)]⟩),
    ("router-c", ⟨[("web.example.com", ⟨"digicert", "CERT-C"⟩)]⟩)]⟩

/-- A listing whose only router carries the target CNAME under a different
issuer, so nothing matches. -/
def noMatchListing : CertificateSetInfo :=
  ⟨[("router-x", ⟨[("web.example.com", ⟨"other-issuer", "CERT-X"⟩)]⟩)]⟩

/-- A remote endpoint where every call succeeds and the certificate listing
is `sampleListing`. -/
def sampleProvider : Remote :=
  { AppSetCertIssuer := fun _ _ => Except.ok ()
    AppUnsetCertIssuer := fun _ _ => Except.ok ()
    AppGetCertificates := fun _ => Except.ok sampleListing }

/-- Like `sampleProvider` but the listing enumerates its routers in the
permuted order. -/
def sampleProviderPermuted : Remote :=
  { AppSetCertIssuer := fun _ _ => Except.ok ()
    AppUnsetCertIssuer := fun _ _ => Except.ok ()
    AppGetCertificates := fun _ => Except.ok sampleListingPermuted }

/-- A remote endpoint whose listing is `noMatchListing`. -/
def noMatchProvider : Remote :=
  { AppSetCertIssuer := fun _ _ => Except.ok ()
    AppUnsetCertIssuer := fun _ _ => Except.ok ()
    AppGetCertificates := fun _ => Except.ok noMatchListing }

/-- A remote endpoint where every call fails. -/
def failingProvider : Remote :=
  { AppSetCertIssuer := fun _ _ => Except.error "set boom"
    AppUnsetCertIssuer := fun _ _ => Except.error "unset boom"
    AppGetCertificates := fun _ => Except.error "remote failure" }

/-- A resource state holding a well-formed persisted identifier. -/
def sampleState : ResourceState :=
  { id := "myapp::web.example.com::letsencrypt"
    app := "myapp"
    cname := "web.example.com"
    issuer := "letsencrypt"
    router := []
    certificate := []
    ready := false }

/-- A second state whose identifier differs from `sampleState` only in the
issuer part. -/
def sampleStateOtherIssuer : ResourceState :=
  { sampleState with id := "myapp::web.example.com::digicert", issuer := "digicert" }

/-- A resource state holding a malformed persisted identifier (it has no
`::` delimiters, so it splits into one part instead of three). -/
def malformedState : ResourceState :=
  { id := "abc"
    app := ""
    cname := ""
    issuer := ""
    router := []
    certificate := []
    ready := false }

/-! ## Helper lemmas -/

theorem charToNatInj {a b : Char} (h : a.toNat = b.toNat) : a = b :=
  Char.eq_of_val_eq (UInt32.eq_of_toBitVec_eq (BitVec.eq_of_toNat_eq h))

theorem splitOnDoubleColon_ne_nil : ∀ l : List Char, splitOnDoubleColon l ≠ []
  | [] => by simp [splitOnDoubleColon]
  | [c] => by simp [splitOnDoubleColon]
  | c1 :: c2 :: rest => by
    simp only [splitOnDoubleColon]
    split
    · simp
    · split
      · simp
      · simp

theorem splitOnDoubleColon_no_colon : ∀ {l : List Char}, ':' ∉ l → splitOnDoubleColon l = [l]
  | [], _ => rfl
  | [c], _ => rfl
  | c1 :: c2 :: rest, h => by
    have h1 : c1 ≠ ':' := fun hc => h (by simp [hc])
    have h2 : ':' ∉ c2 :: rest := fun hc => h (List.mem_cons_of_mem _ hc)
    have ih := splitOnDoubleColon_no_colon h2
    simp only [splitOnDoubleColon]
    rw [if_neg (by tauto), ih]

theorem splitOnDoubleColon_append :
    ∀ {a : List Char}, ':' ∉ a → ∀ t : List Char,
      splitOnDoubleColon (a ++ ':' :: ':' :: t) = a :: splitOnDoubleColon t
  | [], _, t => by simp [splitOnDoubleColon]
  | [c], h, t => by
    have hc : c ≠ ':' := by
      intro hh
      exact h (by simp [hh])
    simp [splitOnDoubleColon, hc]
  | c1 :: c2 :: a, h, t => by
    have h1 : c1 ≠ ':' := by
      intro hh
      exact h (by simp [hh])
    have h2 : ':' ∉ c2 :: a := fun hc => h (List.mem_cons_of_mem _ hc)
    have ih := splitOnDoubleColon_append h2 t
    simp only [List.cons_append] at ih ⊢
    rw [splitOnDoubleColon]
    rw [if_neg (by tauto)]
    rw [ih]

theorem IDtoParts_roundtrip (app cname issuer : String)
    (ha : ':' ∉ app.data) (hc : ':' ∉ cname.data) (hi : ':' ∉ issuer.data) :
    IDtoParts (app ++ "::" ++ cname ++ "::" ++ issuer) 3 = Except.ok [app, cname, issuer] := by
  have hdata : (app ++ "::" ++ cname ++ "::" ++ issuer).data
      = app.data ++ ':' :: ':' :: (cname.data ++ ':' :: ':' :: issuer.data) := by
    simp [String.data_append, List.append_assoc]
  unfold IDtoParts
  rw [hdata, splitOnDoubleColon_append ha, splitOnDoubleColon_append hc,
    splitOnDoubleColon_no_colon hi]
  rfl

theorem listCharLe_total : ∀ a b : List Char, listCharLe a b = true ∨ listCharLe b a = true
  | [], _ => Or.inl rfl
  | _ :: _, [] => Or.inr rfl
  | a :: as, b :: bs => by
    simp only [listCharLe]
    rcases Nat.lt_trichotomy a.toNat b.toNat with h | h | h
    · left
      rw [if_pos h]
    · rw [if_neg (by omega), if_neg (by omega), if_neg (by omega), if_neg (by omega)]
      exact listCharLe_total as bs
    · right
      rw [if_pos h]

theorem listCharLe_trans :
    ∀ a b c : List Char, listCharLe a b = true → listCharLe b c = true → listCharLe a c = true
  | [], _, _, _, _ => rfl
  | _ :: _, [], _, h1, _ => by simp [listCharLe] at h1
  | _ :: _, _ :: _, [], _, h2 => by simp [listCharLe] at h2
  | x :: as, y :: bs, z :: cs, h1, h2 => by
    simp only [listCharLe] at h1 h2 ⊢
    rcases Nat.lt_trichotomy x.toNat y.toNat with hxy | hxy | hxy
    · rcases Nat.lt_trichotomy y.toNat z.toNat with hyz | hyz | hyz
      · rw [if_pos (Nat.lt_trans hxy hyz)]
      · rw [if_pos (by omega : x.toNat < z.toNat)]
      · rw [if_neg (by omega), if_pos hyz] at h2
        simp at h2
    · rcases Nat.lt_trichotomy y.toNat z.toNat with hyz | hyz | hyz
      · rw [if_pos (by omega : x.toNat < z.toNat)]
      · rw [if_neg (by omega), if_neg (by omega)] at h1 h2
        rw [if_neg (by omega), if_neg (by omega)]
        exact listCharLe_trans as bs cs h1 h2
      · rw [if_neg (by omega), if_pos hyz] at h2
        simp at h2
    · rw [if_neg (by omega), if_pos hxy] at h1
      simp at h1

theorem listCharLe_antisymm :
    ∀ a b : List Char, listCharLe a b = true → listCharLe b a = true → a = b
  | [], [], _, _ => rfl
  | [], _ :: _, _, h2 => by simp [listCharLe] at h2
  | _ :: _, [], h1, _ => by simp [listCharLe] at h1
  | x :: as, y :: bs, h1, h2 => by
    simp only [listCharLe] at h1 h2
    rcases Nat.lt_trichotomy x.toNat y.toNat with hxy | hxy | hxy
    · rw [if_neg (by omega), if_pos hxy] at h2
      simp at h2
    · rw [if_neg (by omega), if_neg (by omega)] at h1 h2
      rw [charToNatInj hxy, listCharLe_antisymm as bs h1 h2]
    · rw [if_neg (by omega), if_pos hxy] at h1
      simp at h1

instance : IsTotal String StrOrd := ⟨fun a b => listCharLe_total a.data b.data⟩

instance : IsTrans String StrOrd := ⟨fun a b c => listCharLe_trans a.data b.data c.data⟩

instance : IsAntisymm String StrOrd :=
  ⟨fun a b h1 h2 => String.ext (listCharLe_antisymm a.data b.data h1 h2)⟩

theorem sortStrings_sorted (l : List String) : List.Sorted StrOrd (sortStrings l) :=
  List.sorted_insertionSort StrOrd l

theorem sortStrings_perm (l : List String) : (sortStrings l).Perm l :=
  List.perm_insertionSort StrOrd l

theorem mem_sortStrings {x : String} {l : List String} : x ∈ sortStrings l ↔ x ∈ l :=
  (sortStrings_perm l).mem_iff

theorem sortStrings_congr {l1 l2 : List String} (h : l1.Perm l2) :
    sortStrings l1 = sortStrings l2 :=
  List.eq_of_perm_of_sorted
    ((sortStrings_perm l1).trans (h.trans (sortStrings_perm l2).symm))
    (sortStrings_sorted l1) (sortStrings_sorted l2)

theorem sortStrings_length (l : List String) : (sortStrings l).length = l.length :=
  (sortStrings_perm l).length_eq

theorem collectUsed_go (cname issuer : String) :
    ∀ (routers : List (String × RouterCertificates)) (acc : List String × List String),
      routers.foldl (collectStep cname issuer) acc
        = (acc.1 ++ routers.filterMap (routerFilter cname issuer),
           acc.2 ++ routers.filterMap (certFilter cname issuer)) := by
  intro routers
  induction routers with
  | nil => intro acc; simp
  | cons e rs ih =>
    intro acc
    simp only [List.foldl_cons, List.filterMap_cons]
    rw [ih]
    cases hl : e.2.Cnames.lookup cname with
    | none => simp [collectStep, routerFilter, certFilter, hl]
    | some c =>
      by_cases hi : c.Issuer = issuer
      · by_cases hc : c.Certificate = ""
        · simp [collectStep, routerFilter, certFilter, hl, hi, hc]
        · simp [collectStep, routerFilter, certFilter, hl, hi, hc]
      · simp [collectStep, routerFilter, certFilter, hl, hi]

theorem collectUsed_eq (cname issuer : String) (routers : List (String × RouterCertificates)) :
    collectUsed cname issuer routers
      = (routers.filterMap (routerFilter cname issuer),
         routers.filterMap (certFilter cname issuer)) := by
  simpa using collectUsed_go cname issuer routers ([], [])

theorem read_err_parse (provider : Remote) (d : ResourceState) (e : String)
    (hid : IDtoParts d.id 3 = Except.error e) :
    resourceTsuruCertificateIssuerRead provider d = (d, [], some e) := by
  unfold resourceTsuruCertificateIssuerRead
  rw [hid]

theorem read_err_remote (provider : Remote) (d : ResourceState)
    (app cname issuer : String) (e : String)
    (hid : IDtoParts d.id 3 = Except.ok [app, cname, issuer])
    (hget : provider.AppGetCertificates app = Except.error e) :
    resourceTsuruCertificateIssuerRead provider d
      = (d, [ApiCall.getCertificates app], some e) := by
  unfold resourceTsuruCertificateIssuerRead
  rw [hid]
  simp only [List.getD_cons_zero, List.getD_cons_succ]
  rw [hget]

theorem read_ok (provider : Remote) (d : ResourceState)
    (app cname issuer : String) (certificates : CertificateSetInfo)
    (hid : IDtoParts d.id 3 = Except.ok [app, cname, issuer])
    (hget : provider.AppGetCertificates app = Except.ok certificates) :
    resourceTsuruCertificateIssuerRead provider d
      = ({ d with
            app := app
            cname := cname
            issuer := issuer
            router := sortStrings (certificates.Routers.filterMap (routerFilter cname issuer))
            certificate := sortStrings (certificates.Routers.filterMap (certFilter cname issuer))
            ready := decide (0 <
              (sortStrings (certificates.Routers.filterMap (certFilter cname issuer))).length) },
         [ApiCall.getCertificates app], none) := by
  unfold resourceTsuruCertificateIssuerRead
  rw [hid]
  simp only [List.getD_cons_zero, List.getD_cons_succ]
  rw [hget]
  simp only [collectUsed_eq]

theorem routerFilter_eq_some {cname issuer : String} {entry : String × RouterCertificates}
    {name : String} :
    routerFilter cname issuer entry = some name ↔
      entry.1 = name ∧ ∃ c, entry.2.Cnames.lookup cname = some c ∧ c.Issuer = issuer := by
  cases hl : entry.2.Cnames.lookup cname with
  | none => simp [routerFilter, hl]
  | some c =>
    by_cases hi : c.Issuer = issuer
    · simp [routerFilter, hl, hi]
    · simp [routerFilter, hl, hi]

theorem certFilter_eq_some {cname issuer v : String} {entry : String × RouterCertificates} :
    certFilter cname issuer entry = some v ↔
      ∃ c, entry.2.Cnames.lookup cname = some c ∧ c.Issuer = issuer ∧
        c.Certificate = v ∧ v ≠ "" := by
  cases hl : entry.2.Cnames.lookup cname with
  | none => simp [certFilter, hl]
  | some c =>
    by_cases hi : c.Issuer = issuer
    · by_cases hc : c.Certificate = ""
      · simp [certFilter, hl, hi, hc]
        intro h
        simp [h.symm]
      · simp [certFilter, hl, hi, hc]
        intro h
        exact h ▸ hc
    · simp [certFilter, hl, hi]

theorem sortStrings_nil : sortStrings [] = [] := rfl

theorem read_preserves_id (provider : Remote) (d : ResourceState) :
    (resourceTsuruCertificateIssuerRead provider d).1.id = d.id := by
  unfold resourceTsuruCertificateIssuerRead
  split
  · rfl
  · dsimp only
    split
    · rfl
    · rfl

theorem IDtoParts_ok_length {id : String} {n : Nat} {parts : List String}
    (h : IDtoParts id n = Except.ok parts) : parts.length = n := by
  unfold IDtoParts at h
  dsimp only at h
  split at h
  next hlen =>
    cases h
    exact hlen
  next => cases h

theorem unset_head (provider : Remote) (d : ResourceState) (app cname issuer : String)
    (hid : IDtoParts d.id 3 = Except.ok [app, cname, issuer]) :
    (resourceTsuruCertificateIssuerUnset provider d).2.1.head?
      = some (ApiCall.unsetCertIssuer app cname) := by
  unfold resourceTsuruCertificateIssuerUnset
  rw [hid]
  simp only [List.getD_cons_zero, List.getD_cons_succ]
  cases provider.AppUnsetCertIssuer app cname with
  | error e => rfl
  | ok u => rfl

/-! ## Claims -/

/-- C1: for every certificate listing returned by the remote API, the read
operation includes a router name in the computed router list if and only if
that router's CNAME table contains the target CNAME and that entry's issuer
equals the target issuer; and the computed certificate list contains exactly
the non-empty certificate values of those included routers. -/
theorem claim1_read_membership
    (provider : Remote) (d : ResourceState)
    (app cname issuer : String) (certificates : CertificateSetInfo)
    (hid : IDtoParts d.id 3 = Except.ok [app, cname, issuer])
    (hget : provider.AppGetCertificates app = Except.ok certificates) :
    (∀ name : String,
        name ∈ (resourceTsuruCertificateIssuerRead provider d).1.router ↔
          ∃ entry ∈ certificates.Routers,
            entry.1 = name ∧
              ∃ c, entry.2.Cnames.lookup cname = some c ∧ c.Issuer = issuer) ∧
    (∀ v : String,
        v ∈ (resourceTsuruCertificateIssuerRead provider d).1.certificate ↔
          ∃ entry ∈ certificates.Routers,
            ∃ c, entry.2.Cnames.lookup cname = some c ∧ c.Issuer = issuer ∧
              c.Certificate = v ∧ v ≠ "") := by
  rw [read_ok provider d app cname issuer certificates hid hget]
  dsimp only
  constructor
  · intro name
    simp only [mem_sortStrings, List.mem_filterMap, routerFilter_eq_some]
  · intro v
    simp only [mem_sortStrings, List.mem_filterMap, certFilter_eq_some]

/-- Closed witness for C1 at a concrete listing and identifier. -/
theorem claim1_witness :
    (IDtoParts sampleState.id 3
        = Except.ok ["myapp", "web.example.com", "letsencrypt"] ∧
      sampleProvider.AppGetCertificates "myapp" = Except.ok sampleListing) ∧
    ((∀ name : String,
        name ∈ (resourceTsuruCertificateIssuerRead sampleProvider sampleState).1.router ↔
          ∃ entry ∈ sampleListing.Routers,
            entry.1 = name ∧
              ∃ c, entry.2.Cnames.lookup "web.example.com" = some c ∧
                c.Issuer = "letsencrypt") ∧
      (∀ v : String,
        v ∈ (resourceTsuruCertificateIssuerRead sampleProvider sampleState).1.certificate ↔
          ∃ entry ∈ sampleListing.Routers,
            ∃ c, entry.2.Cnames.lookup "web.example.com" = some c ∧
              c.Issuer = "letsencrypt" ∧ c.Certificate = v ∧ v ≠ "")) :=
  ⟨⟨rfl, rfl⟩,
   claim1_read_membership sampleProvider sampleState "myapp" "web.example.com"
     "letsencrypt" sampleListing rfl rfl⟩

/-- C2: for all valid (app, cname, issuer) triples — none of the three parts
containing a colon — the identifier composed by the set operation as
`app ++ "::" ++ cname ++ "::" ++ issuer` decomposes back into the same three
values by the identifier parser used by the read and unset operations. -/
theorem claim2_id_roundtrip (app cname issuer : String)
    (ha : ':' ∉ app.data) (hc : ':' ∉ cname.data) (hi : ':' ∉ issuer.data) :
    IDtoParts (app ++ "::" ++ cname ++ "::" ++ issuer) 3
      = Except.ok [app, cname, issuer] :=
  IDtoParts_roundtrip app cname issuer ha hc hi

/-- Closed witness for C2 at a concrete triple. -/
theorem claim2_witness :
    ( ':' ∉ "myapp".data ∧ ':' ∉ "web.example.com".data ∧
      ':' ∉ "letsencrypt".data) ∧
    IDtoParts ("myapp" ++ "::" ++ "web.example.com" ++ "::" ++ "letsencrypt") 3
      = Except.ok ["myapp", "web.example.com", "letsencrypt"] :=
  ⟨⟨by decide, by decide, by decide⟩,
   claim2_id_roundtrip "myapp" "web.example.com" "letsencrypt"
     (by decide) (by decide) (by decide)⟩

/-- C3: for every certificate listing, the read operation sets the computed
ready flag to true if and only if at least one non-empty certificate value was
found among the routers matching the target CNAME and issuer. -/
theorem claim3_ready_iff
    (provider : Remote) (d : ResourceState)
    (app cname issuer : String) (certificates : CertificateSetInfo)
    (hid : IDtoParts d.id 3 = Except.ok [app, cname, issuer])
    (hget : provider.AppGetCertificates app = Except.ok certificates) :
    (resourceTsuruCertificateIssuerRead provider d).1.ready = true ↔
      ∃ entry ∈ certificates.Routers,
        ∃ c, entry.2.Cnames.lookup cname = some c ∧ c.Issuer = issuer ∧
          c.Certificate ≠ "" := by
  rw [read_ok provider d app cname issuer certificates hid hget]
  dsimp only
  simp only [decide_eq_true_eq, sortStrings_length, List.length_pos_iff_exists_mem,
    List.mem_filterMap, certFilter_eq_some]
  constructor
  · rintro ⟨v, entry, hmem, c, hl, hiss, hcert, hne⟩
    exact ⟨entry, hmem, c, hl, hiss, hcert ▸ hne⟩
  · rintro ⟨entry, hmem, c, hl, hiss, hne⟩
    exact ⟨c.Certificate, entry, hmem, c, hl, hiss, rfl, hne⟩

/-- Closed witness for C3 at a concrete listing and identifier. -/
theorem claim3_witness :
    (IDtoParts sampleState.id 3
        = Except.ok ["myapp", "web.example.com", "letsencrypt"] ∧
      sampleProvider.AppGetCertificates "myapp" = Except.ok sampleListing) ∧
    ((resourceTsuruCertificateIssuerRead sampleProvider sampleState).1.ready = true ↔
      ∃ entry ∈ sampleListing.Routers,
        ∃ c, entry.2.Cnames.lookup "web.example.com" = some c ∧
          c.Issuer = "letsencrypt" ∧ c.Certificate ≠ "") :=
  ⟨⟨rfl, rfl⟩,
   claim3_ready_iff sampleProvider sampleState "myapp" "web.example.com"
     "letsencrypt" sampleListing rfl rfl⟩

/-- C4: the router and certificate lists written to state by the read
operation are lexicographically sorted, and the output of read is the same
for any two iteration orders of the routers map in the listing. -/
theorem claim4_sorted_deterministic
    (provider provider2 : Remote) (d : ResourceState)
    (app cname issuer : String) (certificates certificates2 : CertificateSetInfo)
    (hid : IDtoParts d.id 3 = Except.ok [app, cname, issuer])
    (hget : provider.AppGetCertificates app = Except.ok certificates)
    (hget2 : provider2.AppGetCertificates app = Except.ok certificates2)
    (hperm : certificates.Routers.Perm certificates2.Routers) :
    List.Sorted StrOrd (resourceTsuruCertificateIssuerRead provider d).1.router ∧
    List.Sorted StrOrd (resourceTsuruCertificateIssuerRead provider d).1.certificate ∧
    resourceTsuruCertificateIssuerRead provider d
      = resourceTsuruCertificateIssuerRead provider2 d := by
  rw [read_ok provider d app cname issuer certificates hid hget,
    read_ok provider2 d app cname issuer certificates2 hid hget2]
  refine ⟨sortStrings_sorted _, sortStrings_sorted _, ?_⟩
  rw [sortStrings_congr (hperm.filterMap (routerFilter cname issuer)),
    sortStrings_congr (hperm.filterMap (certFilter cname issuer))]

/-- Closed witness for C4: two enumeration orders of the same four routers. -/
theorem claim4_witness :
    (IDtoParts sampleState.id 3
        = Except.ok ["myapp", "web.example.com", "letsencrypt"] ∧
      sampleProvider.AppGetCertificates "myapp" = Except.ok sampleListing ∧
      sampleProviderPermuted.AppGetCertificates "myapp"
        = Except.ok sampleListingPermuted ∧
      sampleListing.Routers.Perm sampleListingPermuted.Routers) ∧
    (List.Sorted StrOrd
        (resourceTsuruCertificateIssuerRead sampleProvider sampleState).1.router ∧
      List.Sorted StrOrd
        (resourceTsuruCertificateIssuerRead sampleProvider sampleState).1.certificate ∧
      resourceTsuruCertificateIssuerRead sampleProvider sampleState
        = resourceTsuruCertificateIssuerRead sampleProviderPermuted sampleState) :=
  ⟨⟨rfl, rfl, rfl, by decide⟩,
   claim4_sorted_deterministic sampleProvider sampleProviderPermuted sampleState
     "myapp" "web.example.com" "letsencrypt" sampleListing sampleListingPermuted
     rfl rfl rfl (by decide)⟩

/-- C5: the set operation calls the remote assign API with the configured
(app, cname, issuer); on remote failure it reports the remote error and does
not set the identifier (the state is returned unchanged); on success it sets
the identifier to `app::cname::issuer` and delegates to the read operation. -/
theorem claim5_set_spec (provider : Remote) (d : ResourceState) :
    (∃ e, provider.AppSetCertIssuer d.app ⟨d.cname, d.issuer⟩ = Except.error e ∧
        resourceTsuruCertificateIssuerSet provider d
          = (d, [ApiCall.setCertIssuer d.app ⟨d.cname, d.issuer⟩],
             some ("unable to set certificate issuer: " ++ e))) ∨
    (provider.AppSetCertIssuer d.app ⟨d.cname, d.issuer⟩ = Except.ok () ∧
        (resourceTsuruCertificateIssuerSet provider d).1.id
          = d.app ++ "::" ++ d.cname ++ "::" ++ d.issuer ∧
        resourceTsuruCertificateIssuerSet provider d
          = ((resourceTsuruCertificateIssuerRead provider
                { d with id := d.app ++ "::" ++ d.cname ++ "::" ++ d.issuer }).1,
             ApiCall.setCertIssuer d.app ⟨d.cname, d.issuer⟩ ::
               (resourceTsuruCertificateIssuerRead provider
                 { d with id := d.app ++ "::" ++ d.cname ++ "::" ++ d.issuer }).2.1,
             (resourceTsuruCertificateIssuerRead provider
               { d with id := d.app ++ "::" ++ d.cname ++ "::" ++ d.issuer }).2.2)) := by
  cases hcall : provider.AppSetCertIssuer d.app ⟨d.cname, d.issuer⟩ with
  | error e =>
    left
    refine ⟨e, rfl, ?_⟩
    unfold resourceTsuruCertificateIssuerSet
    dsimp only
    rw [hcall]
  | ok u =>
    right
    cases u
    have hset : resourceTsuruCertificateIssuerSet provider d
        = ((resourceTsuruCertificateIssuerRead provider
              { d with id := d.app ++ "::" ++ d.cname ++ "::" ++ d.issuer }).1,
           ApiCall.setCertIssuer d.app ⟨d.cname, d.issuer⟩ ::
             (resourceTsuruCertificateIssuerRead provider
               { d with id := d.app ++ "::" ++ d.cname ++ "::" ++ d.issuer }).2.1,
           (resourceTsuruCertificateIssuerRead provider
             { d with id := d.app ++ "::" ++ d.cname ++ "::" ++ d.issuer }).2.2) := by
      unfold resourceTsuruCertificateIssuerSet
      dsimp only
      rw [hcall]
    refine ⟨rfl, ?_, hset⟩
    rw [hset]
    exact read_preserves_id provider _

/-- C6: the unset operation parses the identifier, calls the remote unassign
API with its app and cname parts; on remote failure it reports the remote
error; otherwise it delegates to the read operation. -/
theorem claim6_unset_spec (provider : Remote) (d : ResourceState)
    (app cname issuer : String)
    (hid : IDtoParts d.id 3 = Except.ok [app, cname, issuer]) :
    (∃ e, provider.AppUnsetCertIssuer app cname = Except.error e ∧
        resourceTsuruCertificateIssuerUnset provider d
          = (d, [ApiCall.unsetCertIssuer app cname],
             some ("unable to unset certificate issuer: " ++ e))) ∨
    (provider.AppUnsetCertIssuer app cname = Except.ok () ∧
        resourceTsuruCertificateIssuerUnset provider d
          = ((resourceTsuruCertificateIssuerRead provider d).1,
             ApiCall.unsetCertIssuer app cname ::
               (resourceTsuruCertificateIssuerRead provider d).2.1,
             (resourceTsuruCertificateIssuerRead provider d).2.2)) := by
  cases hcall : provider.AppUnsetCertIssuer app cname with
  | error e =>
    left
    refine ⟨e, rfl, ?_⟩
    unfold resourceTsuruCertificateIssuerUnset
    rw [hid]
    simp only [List.getD_cons_zero, List.getD_cons_succ]
    rw [hcall]
  | ok u =>
    right
    cases u
    refine ⟨rfl, ?_⟩
    unfold resourceTsuruCertificateIssuerUnset
    rw [hid]
    simp only [List.getD_cons_zero, List.getD_cons_succ]
    rw [hcall]

/-- Closed witness for C6 at a concrete identifier and remote endpoint. -/
theorem claim6_witness :
    IDtoParts sampleState.id 3
        = Except.ok ["myapp", "web.example.com", "letsencrypt"] ∧
    ((∃ e, sampleProvider.AppUnsetCertIssuer "myapp" "web.example.com"
            = Except.error e ∧
        resourceTsuruCertificateIssuerUnset sampleProvider sampleState
          = (sampleState, [ApiCall.unsetCertIssuer "myapp" "web.example.com"],
             some ("unable to unset certificate issuer: " ++ e))) ∨
      (sampleProvider.AppUnsetCertIssuer "myapp" "web.example.com" = Except.ok () ∧
        resourceTsuruCertificateIssuerUnset sampleProvider sampleState
          = ((resourceTsuruCertificateIssuerRead sampleProvider sampleState).1,
             ApiCall.unsetCertIssuer "myapp" "web.example.com" ::
               (resourceTsuruCertificateIssuerRead sampleProvider sampleState).2.1,
             (resourceTsuruCertificateIssuerRead sampleProvider sampleState).2.2))) :=
  ⟨rfl, claim6_unset_spec sampleProvider sampleState "myapp" "web.example.com"
    "letsencrypt" rfl⟩

/-- C7: for every identifier that does not split into exactly three parts,
both the read and the unset operation return the parse diagnostic, leave the
state unchanged, and make no remote API call. -/
theorem claim7_malformed_id (provider : Remote) (d : ResourceState) (e : String)
    (hid : IDtoParts d.id 3 = Except.error e) :
    resourceTsuruCertificateIssuerRead provider d = (d, [], some e) ∧
    resourceTsuruCertificateIssuerUnset provider d = (d, [], some e) := by
  refine ⟨read_err_parse provider d e hid, ?_⟩
  unfold resourceTsuruCertificateIssuerUnset
  rw [hid]

/-- Closed witness for C7 at a malformed identifier. -/
theorem claim7_witness :
    IDtoParts malformedState.id 3 = Except.error "unexpected ID format: abc" ∧
    (resourceTsuruCertificateIssuerRead failingProvider malformedState
        = (malformedState, [], some "unexpected ID format: abc") ∧
      resourceTsuruCertificateIssuerUnset failingProvider malformedState
        = (malformedState, [], some "unexpected ID format: abc")) :=
  ⟨rfl, claim7_malformed_id failingProvider malformedState
    "unexpected ID format: abc" rfl⟩

/-- C8: whenever the fetched certificate listing contains no router whose
CNAME table maps the target CNAME to the target issuer, read writes an empty
router list, an empty certificate list, and ready=false. -/
theorem claim8_no_match_empty
    (provider : Remote) (d : ResourceState)
    (app cname issuer : String) (certificates : CertificateSetInfo)
    (hid : IDtoParts d.id 3 = Except.ok [app, cname, issuer])
    (hget : provider.AppGetCertificates app = Except.ok certificates)
    (hnone : ∀ entry ∈ certificates.Routers,
        ∀ c, entry.2.Cnames.lookup cname = some c → c.Issuer ≠ issuer) :
    (resourceTsuruCertificateIssuerRead provider d).1.router = [] ∧
    (resourceTsuruCertificateIssuerRead provider d).1.certificate = [] ∧
    (resourceTsuruCertificateIssuerRead provider d).1.ready = false := by
  have hr : certificates.Routers.filterMap (routerFilter cname issuer) = [] := by
    rw [List.filterMap_eq_nil_iff]
    intro entry hmem
    cases hl : entry.2.Cnames.lookup cname with
    | none => simp [routerFilter, hl]
    | some c => simp [routerFilter, hl, hnone entry hmem c hl]
  have hcf : certificates.Routers.filterMap (certFilter cname issuer) = [] := by
    rw [List.filterMap_eq_nil_iff]
    intro entry hmem
    cases hl : entry.2.Cnames.lookup cname with
    | none => simp [certFilter, hl]
    | some c => simp [certFilter, hl, hnone entry hmem c hl]
  rw [read_ok provider d app cname issuer certificates hid hget]
  dsimp only
  rw [hr, hcf, sortStrings_nil]
  exact ⟨rfl, rfl, rfl⟩

/-- Closed witness for C8: a listing whose only router has a different
issuer for the target CNAME. -/
theorem claim8_witness :
    (IDtoParts sampleState.id 3
        = Except.ok ["myapp", "web.example.com", "letsencrypt"] ∧
      noMatchProvider.AppGetCertificates "myapp" = Except.ok noMatchListing ∧
      (∀ entry ∈ noMatchListing.Routers,
        ∀ c, entry.2.Cnames.lookup "web.example.com" = some c →
          c.Issuer ≠ "letsencrypt")) ∧
    ((resourceTsuruCertificateIssuerRead noMatchProvider sampleState).1.router = [] ∧
      (resourceTsuruCertificateIssuerRead noMatchProvider sampleState).1.certificate = [] ∧
      (resourceTsuruCertificateIssuerRead noMatchProvider sampleState).1.ready = false) := by
  have hnone : ∀ entry ∈ noMatchListing.Routers,
      ∀ c, entry.2.Cnames.lookup "web.example.com" = some c →
        c.Issuer ≠ "letsencrypt" := by
    intro entry hmem c hl
    have hmem2 : entry
        = ("router-x",
           (⟨[("web.example.com", ⟨"other-issuer", "CERT-X"⟩)]⟩ : RouterCertificates)) := by
      simpa [noMatchListing] using hmem
    subst hmem2
    dsimp only at hl
    rw [show List.lookup "web.example.com"
        [("web.example.com", (⟨"other-issuer", "CERT-X"⟩ : CnameCertificate))]
        = some ⟨"other-issuer", "CERT-X"⟩ from by decide] at hl
    injection hl with hv
    subst hv
    decide
  exact ⟨⟨rfl, rfl, hnone⟩,
    claim8_no_match_empty noMatchProvider sampleState "myapp" "web.example.com"
      "letsencrypt" noMatchListing rfl rfl hnone⟩

/-- C9 (implicit): the remote unassign call issued by the unset operation
depends only on the app and cname parts of the identifier; two identifiers
differing only in the issuer part lead to the identical first remote call. -/
theorem claim9_unset_issuer_independent
    (provider : Remote) (d1 d2 : ResourceState)
    (app cname issuer1 issuer2 : String)
    (h1 : IDtoParts d1.id 3 = Except.ok [app, cname, issuer1])
    (h2 : IDtoParts d2.id 3 = Except.ok [app, cname, issuer2]) :
    (resourceTsuruCertificateIssuerUnset provider d1).2.1.head?
        = some (ApiCall.unsetCertIssuer app cname) ∧
    (resourceTsuruCertificateIssuerUnset provider d1).2.1.head?
        = (resourceTsuruCertificateIssuerUnset provider d2).2.1.head? :=
  ⟨unset_head provider d1 app cname issuer1 h1,
   (unset_head provider d1 app cname issuer1 h1).trans
     (unset_head provider d2 app cname issuer2 h2).symm⟩

/-- Closed witness for C9: two identifiers differing only in the issuer. -/
theorem claim9_witness :
    (IDtoParts sampleState.id 3
        = Except.ok ["myapp", "web.example.com", "letsencrypt"] ∧
      IDtoParts sampleStateOtherIssuer.id 3
        = Except.ok ["myapp", "web.example.com", "digicert"]) ∧
    ((resourceTsuruCertificateIssuerUnset sampleProvider sampleState).2.1.head?
        = some (ApiCall.unsetCertIssuer "myapp" "web.example.com") ∧
      (resourceTsuruCertificateIssuerUnset sampleProvider sampleState).2.1.head?
        = (resourceTsuruCertificateIssuerUnset sampleProvider
            sampleStateOtherIssuer).2.1.head?) :=
  ⟨⟨rfl, rfl⟩,
   claim9_unset_issuer_independent sampleProvider sampleState sampleStateOtherIssuer
     "myapp" "web.example.com" "letsencrypt" "digicert" rfl rfl⟩

/-- C10 (implicit): when the read operation returns a diagnostic error (parse
error or remote listing error), it writes no resource state fields at all. -/
theorem claim10_read_error_atomic (provider : Remote) (d : ResourceState) (e : String)
    (herr : (resourceTsuruCertificateIssuerRead provider d).2.2 = some e) :
    (resourceTsuruCertificateIssuerRead provider d).1 = d := by
  cases hid : IDtoParts d.id 3 with
  | error e2 => rw [read_err_parse provider d e2 hid]
  | ok parts =>
    have hlen : parts.length = 3 := IDtoParts_ok_length hid
    obtain ⟨a, b, c, rfl⟩ := List.length_eq_three.mp hlen
    cases hget : provider.AppGetCertificates a with
    | error e2 => rw [read_err_remote provider d a b c e2 hid hget]
    | ok certs =>
      rw [read_ok provider d a b c certs hid hget] at herr
      simp at herr

/-- Closed witness for C10: a remote endpoint whose listing call fails. -/
theorem claim10_witness :
    (resourceTsuruCertificateIssuerRead failingProvider sampleState).2.2
        = some "remote failure" ∧
    (resourceTsuruCertificateIssuerRead failingProvider sampleState).1 = sampleState :=
  ⟨rfl, claim10_read_error_atomic failingProvider sampleState "remote failure" rfl⟩

end TsuruCertIssuer
